import Mathlib

/-!
Verification of the request-execution core of the `google_maps` client
crate: the nearest-roads `get` retry pipeline
(`src/roads/nearest_roads/request/get.rs`) and the directions builder
setter `with_arrival_time`
(`src/directions/request/with_arrival_time.rs`).

The transport layer, the JSON parser and the backoff driver are external
crates; their outcomes are supplied as explicit data so that the decision
logic of `get` is embedded exactly as written.
-/

namespace GoogleMapsCore

/-- Modelled from the spec: the rate-limiter API categories
(`crate::request_rate::api::Api`) are named tokens — a global `All`
category plus per-service names such as `Roads`; the enum itself is not
part of the excerpted source. -/
inductive Api where
  | All
  | Roads
deriving DecidableEq

/-- Modelled from the spec: the embedded service error object carried by
the response envelope — a status code/token plus a human-readable
message; the struct itself is not part of the excerpted source, but
`get` reads exactly the fields `status` and `message`. -/
structure ServiceError where
  status : String
  message : String
deriving DecidableEq

/-- Modelled from the spec: the deserialized response shape
(`NearestRoadsResponse`) always carries an optional embedded error
object alongside the substantive payload; the struct itself is not part
of the excerpted source and the substantive payload is treated as
opaque, modelled as an optional string. -/
structure NearestRoadsResponse where
  error : Option ServiceError
  payload : Option String
deriving DecidableEq

/-- Error type of the roads module (`crate::roads::error::Error`),
restricted to the variants constructed by `get`. The code renders HTTP
status codes to strings via `to_string`; the numeric code stands in for
that rendering here. -/
inductive RoadsError where
  | QueryNotBuilt
  | GoogleMapsService (status : String) (message : Option String)
  | SerdeJson (msg : String)
  | ReqwestMessage (msg : String)
  | HttpUnsuccessful (status : Nat)
  | Reqwest (msg : String)
deriving DecidableEq

/-- Crate-level error type (`crate::error::Error`); a `RoadsError`
converts into it through the `?` operator in `get`. -/
inductive GoogleMapsError where
  | Roads (e : RoadsError)
deriving DecidableEq

deriving instance DecidableEq for Except

/-- Outcome of handling the body of an HTTP-success response:
`response.text()` may fail, and on success `serde_json::from_str` either
deserializes a `NearestRoadsResponse` or fails. Both steps are external
library calls, so they enter the model by their outcome. -/
inductive BodyOutcome where
  | readFailed (msg : String)
  | readOk (parsed : Except String NearestRoadsResponse)
deriving DecidableEq

/-- Result of one transport attempt: either the HTTP client obtained a
response carrying a status code (with the body outcome behind it), or no
response was obtained at all. -/
inductive RawOutcome where
  | transportFailure (msg : String)
  | httpResponse (status : Nat) (body : BodyOutcome)
deriving DecidableEq

/-- Outcome of `reqwest_client.execute` on a successfully built
request. -/
inductive ExecResult where
  | ok (status : Nat) (body : BodyOutcome)
  | err (msg : String)
deriving DecidableEq

/-- Translation of the transport step of `get` (get.rs lines 52–56):
`reqwest_client.get(url).build()` may itself fail, and only a
successfully built request is executed; a build failure flows into the
same error channel as an execution failure. -/
def attemptTransport (build : Except String Unit) (exec : ExecResult) :
    RawOutcome :=
  match build with
  | .ok _ =>
      match exec with
      | .ok s b => .httpResponse s b
      | .err e => .transportFailure e
  | .error e => .transportFailure e

/-- `StatusCode::is_success` of the http crate: 200 ≤ s ≤ 299. -/
def statusIsSuccess (s : Nat) : Bool :=
  200 ≤ s && s ≤ 299

/-- `StatusCode::is_server_error` of the http crate: 500 ≤ s ≤ 599. -/
def statusIsServerError (s : Nat) : Bool :=
  500 ≤ s && s ≤ 599

/-- Result of classifying one attempt, mirroring the use of
`backoff::Error` in `get`: `transient` carries the optional suggested
retry-after delay (always `none` in this code) and is eligible for
retry; `permanent` exits the retry loop. -/
inductive AttemptResult where
  | success (r : NearestRoadsResponse)
  | transient (e : RoadsError) (retryAfter : Option Nat)
  | permanent (e : RoadsError)
deriving DecidableEq

/-- Translation of the classification logic in the closure body of
`get` (get.rs lines 58–122): an HTTP-success response has its body
read and parsed, with an embedded service error taking precedence over
the payload; a non-success status is transient exactly when it is a
server error (5xx) or 429; no response at all is transient. -/
def classifyAttempt (o : RawOutcome) : AttemptResult :=
  match o with
  | .httpResponse status body =>
      if statusIsSuccess status then
        match body with
        | .readOk (.ok deserialized) =>
            match deserialized.error with
            | some error =>
                .permanent
                  (.GoogleMapsService error.status (some error.message))
            | none => .success deserialized
        | .readOk (.error e) => .permanent (.SerdeJson e)
        | .readFailed e => .permanent (.ReqwestMessage e)
      else if statusIsServerError status || status == 429 then
        .transient (.HttpUnsuccessful status) none
      else
        .permanent (.HttpUnsuccessful status)
  | .transportFailure e => .transient (.Reqwest e) none

/-- Modelled from the spec: the retry driver is `backoff::future::retry`
with `ExponentialBackoff::default()`, external to the excerpted source.
Per the Retry Engine state machine of the spec and the source comment at
get.rs lines 44–47, it repeats the operation while the classification is
Transient, stops immediately on success or on a Permanent
classification, and the backoff policy makes the total number of
attempts finite; that budget is modelled as `fuel` further attempts
allowed after the current one, with the last Transient cause propagated
on exhaustion. Attempt outcomes are supplied as a function from attempt
index to `RawOutcome`; the result pairs the final outcome with one plus
the index of the last attempt performed (the number of attempts when
started at index 0). -/
def retryLoop (attempts : Nat → RawOutcome) (i : Nat) (fuel : Nat) :
    Except RoadsError NearestRoadsResponse × Nat :=
  match classifyAttempt (attempts i) with
  | .success r => (.ok r, i + 1)
  | .permanent e => (.error e, i + 1)
  | .transient e _ =>
      match fuel with
      | 0 => (.error e, i + 1)
      | f + 1 => retryLoop attempts (i + 1) f

/-- Observable events of one call to `get`: a rate-limit acquisition on
a list of API categories (`limit_apis`), or one network attempt. -/
inductive GetEvent where
  | rateLimitAcquire (apis : List Api)
  | networkAttempt (i : Nat)
deriving DecidableEq

/-- Request type for the nearest-roads endpoint, reduced to the only
field `get` reads: the lazily built query string. -/
structure NearestRoadsRequest where
  query : Option String
deriving DecidableEq

/-- Trace of `n` network attempts, in order of their indices. -/
def attemptEvents (n : Nat) : List GetEvent :=
  (List.range n).map GetEvent.networkAttempt

/-- Translation of `NearestRoadsRequest::get` (get.rs lines 25–129):
if the query string has not been built, return `QueryNotBuilt` at once;
otherwise acquire the rate limit once on the `All` and `Roads`
categories and run the retry loop. The network and the backoff budget
are parameters; the second component is the trace of rate-limit and
network events in the order they occur. -/
def get (req : NearestRoadsRequest) (fuel : Nat)
    (attempts : Nat → RawOutcome) :
    Except GoogleMapsError NearestRoadsResponse × List GetEvent :=
  match req.query with
  | none => (.error (.Roads .QueryNotBuilt), [])
  | some _ =>
      let r := retryLoop attempts 0 fuel
      (r.1.mapError GoogleMapsError.Roads,
        GetEvent.rateLimitAcquire [Api.All, Api.Roads] :: attemptEvents r.2)

/-- Number of rate-limit acquisitions in a trace. -/
def countAcquires : List GetEvent → Nat
  | [] => 0
  | .rateLimitAcquire _ :: t => countAcquires t + 1
  | .networkAttempt _ :: t => countAcquires t

/-- Number of network attempts in a trace. -/
def countAttempts : List GetEvent → Nat
  | [] => 0
  | .rateLimitAcquire _ :: t => countAttempts t
  | .networkAttempt _ :: t => countAttempts t + 1

/-- Predicate picking out the retryable classification. -/
def isTransientResult : AttemptResult → Bool
  | .transient _ _ => true
  | _ => false

/-- Modelled from the spec: the directions `Request` builder struct is
not in the excerpted source; per the spec it is a builder of optional
typed parameters — among them the mutually exclusive arrival/departure
time pair — together with the remaining parameters (abstracted as an
association list) and a lazily built query string. `NaiveDateTime`
values are modelled as integer timestamps. -/
structure DirectionsRequest where
  arrival_time : Option Int
  departure_time : Option Int
  otherParams : List (String × String)
  query : Option String
deriving DecidableEq

/-- Translation of `Request::with_arrival_time`
(with_arrival_time.rs lines 26–29): set the `arrival_time` field to
`Some` of the argument and return the builder itself, so calls can be
chained. -/
def with_arrival_time (req : DirectionsRequest) (arrival_time : Int) :
    DirectionsRequest :=
  { req with arrival_time := some arrival_time }

-- -----------------------------------------------------------------------
-- Theorems
-- -----------------------------------------------------------------------

/-- C3: when the query string has not been built, `get` returns the
`QueryNotBuilt` contract-violation error, performs zero network
attempts, and never consults the rate limiter. -/
theorem query_not_built_no_network (fuel : Nat)
    (attempts : Nat → RawOutcome) :
    (get ⟨none⟩ fuel attempts).1 =
        .error (.Roads .QueryNotBuilt) ∧
    countAttempts (get ⟨none⟩ fuel attempts).2 = 0 ∧
    countAcquires (get ⟨none⟩ fuel attempts).2 = 0 :=
  ⟨rfl, rfl, rfl⟩

/-- C10: `with_arrival_time` sets the `arrival_time` field to `Some` of
the given value, leaves every other field of the request unchanged, and
returns the (updated) builder itself, enabling chained calls. -/
theorem with_arrival_time_sets_and_frames (req : DirectionsRequest)
    (t : Int) :
    (with_arrival_time req t).arrival_time = some t ∧
    (with_arrival_time req t).departure_time = req.departure_time ∧
    (with_arrival_time req t).otherParams = req.otherParams ∧
    (with_arrival_time req t).query = req.query :=
  ⟨rfl, rfl, rfl, rfl⟩

/-- C2: for every HTTP response whose status is not a success (2xx),
the classification is Transient when the status is a server error
(500–599) or 429, and Permanent for every other non-2xx status; in both
cases the error carries the status. -/
theorem nonsuccess_status_classification (s : Nat) (b : BodyOutcome)
    (h : ¬ (200 ≤ s ∧ s ≤ 299)) :
    if (500 ≤ s ∧ s ≤ 599) ∨ s = 429 then
      classifyAttempt (.httpResponse s b) =
        .transient (.HttpUnsuccessful s) none
    else
      classifyAttempt (.httpResponse s b) =
        .permanent (.HttpUnsuccessful s) := by
  have hs : statusIsSuccess s = false := by
    simp only [statusIsSuccess, Bool.and_eq_false_iff, decide_eq_false_iff_not]
    omega
  by_cases h5 : (500 ≤ s ∧ s ≤ 599) ∨ s = 429
  · have hsrv : (statusIsServerError s || s == 429) = true := by
      simp only [statusIsServerError, Bool.or_eq_true, Bool.and_eq_true,
        decide_eq_true_eq, beq_iff_eq]
      omega
    simp [classifyAttempt, hs, hsrv, h5]
  · have hsrv : (statusIsServerError s || s == 429) = false := by
      simp only [statusIsServerError, Bool.or_eq_false_iff,
        Bool.and_eq_false_iff, decide_eq_false_iff_not, beq_eq_false_iff_ne]
      omega
    simp [classifyAttempt, hs, hsrv, h5]

/-- C2, witness: status 503 is classified Transient by the theorem. -/
theorem nonsuccess_status_classification_witness :
    if (500 ≤ 503 ∧ 503 ≤ 599) ∨ 503 = 429 then
      classifyAttempt (.httpResponse 503 (.readFailed "")) =
        .transient (.HttpUnsuccessful 503) none
    else
      classifyAttempt (.httpResponse 503 (.readFailed "")) =
        .permanent (.HttpUnsuccessful 503) :=
  nonsuccess_status_classification 503 (.readFailed "") (by decide)

/-- C5: for every HTTP-success response whose body parses into a
response carrying an embedded service error object, the classification
is Permanent and the error preserves the object's status and message,
whatever the substantive payload holds. -/
theorem embedded_error_permanent (s : Nat) (err : ServiceError)
    (payload : Option String) (h : 200 ≤ s ∧ s ≤ 299) :
    classifyAttempt (.httpResponse s (.readOk (.ok ⟨some err, payload⟩))) =
      .permanent (.GoogleMapsService err.status (some err.message)) := by
  have hs : statusIsSuccess s = true := by
    simp only [statusIsSuccess, Bool.and_eq_true, decide_eq_true_eq]
    omega
  simp [classifyAttempt, hs]

/-- C5, witness: a 200 response with an embedded error object yields
the Permanent service error preserving status and message. -/
theorem embedded_error_permanent_witness :
    classifyAttempt (.httpResponse 200
        (.readOk (.ok ⟨some ⟨"INVALID_ARGUMENT", "bad request"⟩,
          some "points"⟩))) =
      .permanent
        (.GoogleMapsService "INVALID_ARGUMENT" (some "bad request")) :=
  embedded_error_permanent 200 ⟨"INVALID_ARGUMENT", "bad request"⟩
    (some "points") (by decide)

/-- C6: for every transport attempt in which no HTTP response is
obtained — whether building the request failed or executing it failed —
the raw outcome is a value, not a crash, and its classification is
Transient. -/
theorem no_response_transient (build : Except String Unit)
    (exec : ExecResult)
    (h : (∃ e, build = .error e) ∨ (∃ e, exec = .err e)) :
    ∃ e, classifyAttempt (attemptTransport build exec) =
      .transient (.Reqwest e) none := by
  cases build with
  | error e => exact ⟨e, rfl⟩
  | ok u =>
      cases exec with
      | ok s b =>
          rcases h with ⟨e, he⟩ | ⟨e, he⟩ <;> cases he
      | err e => exact ⟨e, rfl⟩

/-- C6, witness: a request that fails to build (malformed URL) is
classified Transient. -/
theorem no_response_transient_witness :
    ∃ e, classifyAttempt
        (attemptTransport (.error "builder error") (.ok 200 (.readFailed ""))) =
      .transient (.Reqwest e) none :=
  no_response_transient (.error "builder error") (.ok 200 (.readFailed ""))
    (.inl ⟨"builder error", rfl⟩)

/-- C7: for every HTTP-success response whose body text fails JSON
deserialization, the classification is Permanent with the parse error
preserved. -/
theorem parse_failure_permanent (s : Nat) (e : String)
    (h : 200 ≤ s ∧ s ≤ 299) :
    classifyAttempt (.httpResponse s (.readOk (.error e))) =
      .permanent (.SerdeJson e) := by
  have hs : statusIsSuccess s = true := by
    simp only [statusIsSuccess, Bool.and_eq_true, decide_eq_true_eq]
    omega
  simp [classifyAttempt, hs]

/-- C7, witness: a 200 response with an unparseable body is Permanent. -/
theorem parse_failure_permanent_witness :
    classifyAttempt (.httpResponse 200 (.readOk (.error "expected value"))) =
      .permanent (.SerdeJson "expected value") :=
  parse_failure_permanent 200 "expected value" (by decide)

/-- C9: for every attempt whose HTTP status is a success but whose body
text cannot be read, the classification is Permanent (the attempt is not
retried), with the message preserved. -/
theorem text_read_failure_permanent (s : Nat) (e : String)
    (h : 200 ≤ s ∧ s ≤ 299) :
    classifyAttempt (.httpResponse s (.readFailed e)) =
      .permanent (.ReqwestMessage e) := by
  have hs : statusIsSuccess s = true := by
    simp only [statusIsSuccess, Bool.and_eq_true, decide_eq_true_eq]
    omega
  simp [classifyAttempt, hs]

/-- C9, witness: a 200 response whose body read fails is Permanent. -/
theorem text_read_failure_permanent_witness :
    classifyAttempt (.httpResponse 200 (.readFailed "connection reset")) =
      .permanent (.ReqwestMessage "connection reset") :=
  text_read_failure_permanent 200 "connection reset" (by decide)

theorem countAcquires_map_networkAttempt (l : List Nat) :
    countAcquires (l.map GetEvent.networkAttempt) = 0 := by
  induction l with
  | nil => rfl
  | cons a t ih => simpa [countAcquires] using ih

/-- C1, counterexample: with the query built, a backoff budget allowing
one retry, and a network that always answers 500, `get` performs two
network attempts but only one rate-limit acquisition — the retry attempt
inside the backoff loop is not granted its own rate-limit budget. -/
theorem per_attempt_rate_limit_cx :
    ¬ (countAttempts (get ⟨some "points=1,1"⟩ 1
          (fun _ => .httpResponse 500 (.readFailed ""))).2 ≤
        countAcquires (get ⟨some "points=1,1"⟩ 1
          (fun _ => .httpResponse 500 (.readFailed ""))).2) := by
  decide

/-- C1 (amended): a single rate-limit acquisition on the `All` and
`Roads` categories happens before the retry loop, so it precedes every
network attempt; retry attempts inside the backoff loop do not trigger
further acquisitions — the trace is exactly that one acquisition
followed by the network attempts. -/
theorem rate_limit_once_before_attempts (q : String) (fuel : Nat)
    (attempts : Nat → RawOutcome) :
    countAcquires (get ⟨some q⟩ fuel attempts).2 = 1 ∧
    (get ⟨some q⟩ fuel attempts).2 =
      GetEvent.rateLimitAcquire [Api.All, Api.Roads] ::
        attemptEvents (retryLoop attempts 0 fuel).2 := by
  constructor
  · show countAcquires (GetEvent.rateLimitAcquire [Api.All, Api.Roads] ::
      attemptEvents (retryLoop attempts 0 fuel).2) = 1
    simp [countAcquires, attemptEvents, countAcquires_map_networkAttempt]
  · rfl

theorem retryLoop_count_le (attempts : Nat → RawOutcome) :
    ∀ fuel i, (retryLoop attempts i fuel).2 ≤ i + fuel + 1 := by
  intro fuel
  induction fuel with
  | zero =>
      intro i
      unfold retryLoop
      cases hc : classifyAttempt (attempts i) <;> simp
  | succ f ih =>
      intro i
      unfold retryLoop
      cases hc : classifyAttempt (attempts i)
      · simp
      · show (retryLoop attempts (i + 1) f).2 ≤ i + (f + 1) + 1
        have := ih (i + 1)
        omega
      · simp

theorem retryLoop_pre_transient (attempts : Nat → RawOutcome) :
    ∀ fuel i j, i ≤ j → j + 1 < (retryLoop attempts i fuel).2 →
      isTransientResult (classifyAttempt (attempts j)) = true := by
  intro fuel
  induction fuel with
  | zero =>
      intro i j hij hlt
      unfold retryLoop at hlt
      cases hc : classifyAttempt (attempts i) <;>
        rw [hc] at hlt <;> simp at hlt <;> omega
  | succ f ih =>
      intro i j hij hlt
      unfold retryLoop at hlt
      cases hc : classifyAttempt (attempts i)
      · rw [hc] at hlt; simp at hlt; omega
      · rw [hc] at hlt
        rcases Nat.eq_or_lt_of_le hij with rfl | hij2
        · rw [hc]; rfl
        · exact ih (i + 1) j hij2 hlt
      · rw [hc] at hlt; simp at hlt; omega

theorem retryLoop_stop_success (attempts : Nat → RawOutcome)
    (i fuel : Nat) (r : NearestRoadsResponse)
    (hc : classifyAttempt (attempts i) = .success r) :
    retryLoop attempts i fuel = (.ok r, i + 1) := by
  unfold retryLoop
  rw [hc]

theorem retryLoop_stop_permanent (attempts : Nat → RawOutcome)
    (i fuel : Nat) (e : RoadsError)
    (hc : classifyAttempt (attempts i) = .permanent e) :
    retryLoop attempts i fuel = (.error e, i + 1) := by
  unfold retryLoop
  rw [hc]

theorem retryLoop_step (attempts : Nat → RawOutcome) (i f : Nat)
    (e : RoadsError) (ra : Option Nat)
    (hc : classifyAttempt (attempts i) = .transient e ra) :
    retryLoop attempts i (f + 1) = retryLoop attempts (i + 1) f := by
  conv_lhs => rw [retryLoop.eq_def]
  rw [hc]

/-- Body of a well-formed success response with no embedded error. -/
def okBody : BodyOutcome := .readOk (.ok ⟨none, some "payload"⟩)

/-- Injected fault sequence: three consecutive 500 responses, then a
200 with a clean body. -/
def faultSeq500 (i : Nat) : RawOutcome :=
  if i < 3 then .httpResponse 500 (.readFailed "")
  else .httpResponse 200 okBody

/-- C8: the retry loop performs at most `fuel + 1` attempts for any
input; every attempt before the last one was classified Transient, so no
attempt ever follows a Permanent classification (or a success); three
consecutive 500 responses followed by a 200 yield success after exactly
4 attempts (whenever the backoff budget allows at least three retries);
and a single 400 response yields failure after exactly 1 attempt, for
any budget. -/
theorem retry_bounded_and_stops (attempts : Nat → RawOutcome)
    (fuel : Nat) :
    (retryLoop attempts 0 fuel).2 ≤ fuel + 1 ∧
    (∀ j, j + 1 < (retryLoop attempts 0 fuel).2 →
      isTransientResult (classifyAttempt (attempts j)) = true) ∧
    (∀ k, retryLoop faultSeq500 0 (k + 3) =
      (.ok ⟨none, some "payload"⟩, 4)) ∧
    retryLoop (fun _ => .httpResponse 400 (.readFailed "")) 0 fuel =
      (.error (.HttpUnsuccessful 400), 1) := by
  refine ⟨?_, ?_, ?_, ?_⟩
  · simpa using retryLoop_count_le attempts fuel 0
  · intro j hj
    exact retryLoop_pre_transient attempts fuel 0 j (Nat.zero_le j) hj
  · intro k
    have h0 : classifyAttempt (faultSeq500 0) =
        .transient (.HttpUnsuccessful 500) none := rfl
    have h1 : classifyAttempt (faultSeq500 1) =
        .transient (.HttpUnsuccessful 500) none := rfl
    have h2 : classifyAttempt (faultSeq500 2) =
        .transient (.HttpUnsuccessful 500) none := rfl
    have h3 : classifyAttempt (faultSeq500 3) =
        .success ⟨none, some "payload"⟩ := rfl
    calc retryLoop faultSeq500 0 (k + 3)
        = retryLoop faultSeq500 1 (k + 2) :=
          retryLoop_step faultSeq500 0 (k + 2) _ _ h0
      _ = retryLoop faultSeq500 2 (k + 1) :=
          retryLoop_step faultSeq500 1 (k + 1) _ _ h1
      _ = retryLoop faultSeq500 3 k :=
          retryLoop_step faultSeq500 2 k _ _ h2
      _ = (.ok ⟨none, some "payload"⟩, 4) :=
          retryLoop_stop_success faultSeq500 3 k _ h3
  · exact retryLoop_stop_permanent
      (fun _ => .httpResponse 400 (.readFailed "")) 0 fuel _ rfl

/-- C8, witness: the bound, the all-transient prefix, the
4-attempt success on the 500,500,500,200 sequence, and the 1-attempt
failure on 400, all at a budget of 10 retries. -/
theorem retry_bounded_and_stops_witness :
    (retryLoop faultSeq500 0 10).2 ≤ 11 ∧
    isTransientResult (classifyAttempt (faultSeq500 0)) = true ∧
    retryLoop faultSeq500 0 10 = (.ok ⟨none, some "payload"⟩, 4) ∧
    retryLoop (fun _ => .httpResponse 400 (.readFailed "")) 0 10 =
      (.error (.HttpUnsuccessful 400), 1) := by
  have h := retry_bounded_and_stops faultSeq500 10
  have h4 : retryLoop faultSeq500 0 10 = (.ok ⟨none, some "payload"⟩, 4) :=
    h.2.2.1 7
  exact ⟨h.1, h.2.1 0 (by rw [h4]; omega), h4,
    (retry_bounded_and_stops
      (fun _ => .httpResponse 400 (.readFailed "")) 10).2.2.2⟩

/-- C4, counterexample: on a request whose departure time is already
set, `with_arrival_time` leaves the departure time in place next to the
new arrival time — afterwards neither field of the mutually-exclusive
pair is unset, and no conflict is signalled (the return type has no
error channel). -/
theorem arrival_departure_both_set_cx :
    ¬ ((with_arrival_time ⟨none, some 5, [], none⟩ 7).arrival_time
          = none ∨
       (with_arrival_time ⟨none, some 5, [], none⟩ 7).departure_time
          = none) := by
  decide

/-- C4 (amended): `with_arrival_time` sets the arrival time and silently
keeps a previously set departure time in place — the mutual exclusion of
the pair is a documented caller obligation, not enforced or signalled by
the core; the (deterministic) behavior is that both fields remain set. -/
theorem with_arrival_time_keeps_departure (req : DirectionsRequest)
    (t : Int) (h : req.departure_time ≠ none) :
    (with_arrival_time req t).arrival_time = some t ∧
    (with_arrival_time req t).departure_time = req.departure_time ∧
    (with_arrival_time req t).departure_time ≠ none :=
  ⟨rfl, rfl, h⟩

/-- C4, witness: a request with departure time set, given arrival time
7, keeps both fields set. -/
theorem with_arrival_time_keeps_departure_witness :
    (⟨none, some 5, [], none⟩ : DirectionsRequest).departure_time
        ≠ none ∧
    ((with_arrival_time ⟨none, some 5, [], none⟩ 7).arrival_time
        = some 7 ∧
     (with_arrival_time ⟨none, some 5, [], none⟩ 7).departure_time =
       (⟨none, some 5, [], none⟩ : DirectionsRequest).departure_time ∧
     (with_arrival_time ⟨none, some 5, [], none⟩ 7).departure_time
        ≠ none) :=
  ⟨by decide,
    with_arrival_time_keeps_departure ⟨none, some 5, [], none⟩ 7
      (by decide)⟩

end GoogleMapsCore
